import Mathlib

/-!
Verification development for the askpablos_api client library.

The embedding follows the Python sources: `validators.py`
(ParameterValidator), `utils.py` (build_proxy_options), `core.py`
(AskPablos.get).  Python's dynamically typed scalar values are modelled by
`PyVal`; arguments that may be a dict (headers, query params) by `PyArg`.
Python booleans are a subclass of int, so `isInstInt` accepts them and
Python `==` identifies `True` with `1` and `False` with `0`; floats are
outside the modelled domain.  A Python function that may `raise ValueError`
is embedded as a function into `Except PyExc _`.
-/

/-- A Python scalar value as it can be passed to the validators. -/
inductive PyVal where
  | pstr (s : String)
  | pbool (b : Bool)
  | pint (n : Int)
  | pnone
deriving DecidableEq, Repr

/-- A Python argument in a position the source types `Optional[Dict]`:
either a scalar (`None` included) or a dict of scalar pairs. -/
inductive PyArg where
  | scalar (v : PyVal)
  | pdict (entries : List (PyVal × PyVal))
deriving DecidableEq, Repr

/-- A Python exception as raised by the embedded code.  The sources only
ever raise `ValueError`; `typeError` exists so that statements about the
exception kind are not vacuous. -/
inductive PyExc where
  | valueError (msg : String)
  | typeError (msg : String)
deriving DecidableEq, Repr

/-- Python truthiness of a scalar (`if not url:`). -/
def pyTruthy : PyVal → Bool
  | .pstr s => s != ""
  | .pbool b => b
  | .pint n => n != 0
  | .pnone => false

/-- Python `isinstance(v, str)`. -/
def isInstStr : PyVal → Bool
  | .pstr _ => true
  | _ => false

/-- Python `isinstance(v, int)`: `bool` is a subclass of `int`. -/
def isInstInt : PyVal → Bool
  | .pint _ => true
  | .pbool _ => true
  | _ => false

/-- The integer value of a Python int-instance (`True` counts as 1,
`False` as 0). -/
def intValue : PyVal → Int
  | .pint n => n
  | .pbool b => if b then 1 else 0
  | _ => 0

/-- Python `str(v)` on the modelled scalars, as used by f-strings. -/
def pyStr : PyVal → String
  | .pstr s => s
  | .pbool true => "True"
  | .pbool false => "False"
  | .pint n => toString n
  | .pnone => "None"

/-- Python `str(type(v))` on the modelled scalars. -/
def pyTypeName : PyVal → String
  | .pstr _ => "<class 'str'>"
  | .pbool _ => "<class 'bool'>"
  | .pint _ => "<class 'int'>"
  | .pnone => "<class 'NoneType'>"

/-- Python `v == c` for a string constant `c` (the only string comparisons
the sources make).  A string never equals a bool, int or `None`. -/
def pyEqStr (v : PyVal) (c : String) : Bool :=
  match v with
  | .pstr s => s == c
  | _ => false

/-- Python `v == c` for a bool constant `c`: Python identifies `True` with
the integer 1 and `False` with 0. -/
def pyEqBool (v : PyVal) (c : Bool) : Bool :=
  match v with
  | .pbool b => b == c
  | .pint n => n == (if c then (1 : Int) else 0)
  | _ => false

/-- Python `s.startswith(p)`, embedded over the character list so that it
evaluates by kernel reduction. -/
def strStartsWith (s p : String) : Bool := p.data.isPrefixOf s.data

/-- Python `s.upper()`, embedded over the character list. -/
def strToUpper (s : String) : String := String.mk (s.data.map Char.toUpper)

namespace ParameterValidator

/-- `validators.py`, `ParameterValidator.validate_browser_dependencies`. -/
def validate_browser_dependencies (browser wait_for_load screenshot : Bool)
    (js_strategy : PyVal) : Except PyExc Unit :=
  if browser then .ok ()
  else
    let invalid_features : List String :=
      (if wait_for_load then ["wait_for_load=True"] else []) ++
      (if screenshot then ["screenshot=True"] else []) ++
      (if pyEqStr js_strategy "DEFAULT" then []
       else ["js_strategy=" ++ pyStr js_strategy])
    if invalid_features.isEmpty then .ok ()
    else .error (.valueError ("browser=True is required for these actions: " ++
      String.intercalate ", " invalid_features))

/-- `validators.py`, `ParameterValidator.validate_url`. -/
def validate_url (url : PyVal) : Except PyExc Unit :=
  if pyTruthy url = false then
    .error (.valueError "URL is required and cannot be empty")
  else
    match url with
    | .pstr s =>
      if strStartsWith s "http://" || strStartsWith s "https://" then .ok ()
      else .error (.valueError "URL must start with 'http://' or 'https://'")
    | _ => .error (.valueError "URL must be a string")

/-- `validators.py`, `ParameterValidator.validate_timeout`. -/
def validate_timeout (timeout : PyVal) : Except PyExc Unit :=
  if isInstInt timeout = false then
    .error (.valueError "Timeout must be an integer")
  else if intValue timeout ≤ 0 then
    .error (.valueError "Timeout must be greater than 0")
  else if intValue timeout > 300 then
    .error (.valueError "Timeout cannot exceed 300 seconds")
  else .ok ()

/-- The key/value loop shared by `validate_headers` and `validate_params`:
the first non-string key or value raises. -/
def checkPairs (kind : String) : List (PyVal × PyVal) → Except PyExc Unit
  | [] => .ok ()
  | (k, v) :: rest =>
    if isInstStr k = false then
      .error (.valueError (kind ++ " key must be string, got " ++ pyTypeName k))
    else if isInstStr v = false then
      .error (.valueError (kind ++ " value must be string, got " ++ pyTypeName v))
    else checkPairs kind rest

/-- `validators.py`, `ParameterValidator.validate_headers`. -/
def validate_headers (headers : PyArg) : Except PyExc Unit :=
  match headers with
  | .scalar .pnone => .ok ()
  | .pdict entries => checkPairs "Header" entries
  | .scalar _ => .error (.valueError "Headers must be a dictionary")

/-- `validators.py`, `ParameterValidator.validate_params`. -/
def validate_params (params : PyArg) : Except PyExc Unit :=
  match params with
  | .scalar .pnone => .ok ()
  | .pdict entries => checkPairs "Parameter" entries
  | .scalar _ => .error (.valueError "Parameters must be a dictionary")

/-- `validators.py`, `ParameterValidator.validate_js_strategy`: Python
membership `js_strategy not in ["DEFAULT", True, False]` tests `==`
against each element. -/
def validate_js_strategy (js_strategy : PyVal) : Except PyExc Unit :=
  if pyEqStr js_strategy "DEFAULT" || pyEqBool js_strategy true ||
      pyEqBool js_strategy false then .ok ()
  else .error (.valueError "js_strategy must be one of: DEFAULT, True, False")

/-- `validators.py`, `ParameterValidator.validate_method`. -/
def validate_method (method : PyVal) : Except PyExc Unit :=
  match method with
  | .pstr s =>
    if ["GET", "POST", "PUT", "DELETE", "PATCH", "HEAD", "OPTIONS"].contains
        (strToUpper s) then .ok ()
    else .error (.valueError
      "HTTP method must be one of: GET, POST, PUT, DELETE, PATCH, HEAD, OPTIONS")
  | _ => .error (.valueError "HTTP method must be a string")

/-- `validators.py`, `ParameterValidator.validate_request_params`: the
individual validators run in the source's order, first failure wins. -/
def validate_request_params (url method : PyVal) (headers params : PyArg)
    (browser wait_for_load screenshot : Bool) (js_strategy timeout : PyVal) :
    Except PyExc Unit := do
  validate_url url
  validate_method method
  validate_headers headers
  validate_params params
  validate_js_strategy js_strategy
  validate_timeout timeout
  validate_browser_dependencies browser wait_for_load screenshot js_strategy

end ParameterValidator

/-- Python dict item assignment `d[k] = v`: replace the value of an existing
key in place, else append the pair. -/
def dictUpdate : List (String × PyVal) → String × PyVal → List (String × PyVal)
  | [], kv => [kv]
  | (k, v) :: rest, kv =>
    if k = kv.1 then (k, kv.2) :: rest else (k, v) :: dictUpdate rest kv

/-- Python `d.update(kwargs)`: item assignment for each pair in order. -/
def dictUpdateAll (d : List (String × PyVal)) (kwargs : List (String × PyVal)) :
    List (String × PyVal) :=
  kwargs.foldl dictUpdate d

/-- First-match key lookup in the modelled dict. -/
def lookupD : List (String × PyVal) → String → Option PyVal
  | [], _ => none
  | (k, v) :: rest, key => if key = k then some v else lookupD rest key

/-- `utils.py`, `build_proxy_options`.  In any Python call the keyword
arguments `kwargs` can never contain the keys `browser`, `rotate_proxy`,
`wait_for_load`, `screenshot` or `js_strategy`: those keywords bind to the
named parameters (a duplicate is a `TypeError` at the call site).  The
function body itself places no such restriction, so the model takes an
arbitrary `kwargs` list. -/
def build_proxy_options (browser rotate_proxy wait_for_load screenshot : Bool)
    (js_strategy : PyVal) (kwargs : List (String × PyVal)) :
    List (String × PyVal) :=
  dictUpdateAll
    ([("browser", .pbool browser), ("rotate_proxy", .pbool rotate_proxy)] ++
     (if browser then
        [("wait_for_load", .pbool wait_for_load),
         ("screenshot", .pbool screenshot),
         ("js_strategy", js_strategy)]
      else []))
    kwargs

/-- The arguments `core.py`'s `AskPablos.get` hands to
`self.client.request`: reaching the network layer is modelled as returning
this record. -/
structure NetworkCall where
  url : PyVal
  headers : PyArg
  params : PyArg
  options : List (String × PyVal)
  timeout : PyVal
deriving DecidableEq, Repr

namespace AskPablos

/-- The inline browser-dependency guard at the top of `core.py`'s
`AskPablos.get`.  Note the literal `"js_strategy=True"` entry: unlike the
validator, the facade does not interpolate the actual value. -/
def browser_guard (browser wait_for_load screenshot : Bool)
    (js_strategy : PyVal) : Except PyExc Unit :=
  if !browser && (wait_for_load || screenshot ||
      !pyEqStr js_strategy "DEFAULT") then
    let browser_features : List String :=
      (if wait_for_load then ["wait_for_load=True"] else []) ++
      (if screenshot then ["screenshot=True"] else []) ++
      (if pyEqStr js_strategy "DEFAULT" then [] else ["js_strategy=True"])
    .error (.valueError ("browser=True is required for these actions: " ++
      String.intercalate ", " browser_features))
  else .ok ()

/-- `core.py`, `AskPablos.get`: the inline guard, then `build_proxy_options`,
then the delegation to `self.client.request` (the returned `NetworkCall`). -/
def get (url : PyVal) (params headers : PyArg)
    (browser rotate_proxy wait_for_load screenshot : Bool)
    (js_strategy timeout : PyVal) (options : List (String × PyVal)) :
    Except PyExc NetworkCall :=
  match browser_guard browser wait_for_load screenshot js_strategy with
  | .error e => .error e
  | .ok _ =>
    .ok { url := url, headers := headers, params := params,
          options := build_proxy_options browser rotate_proxy wait_for_load
            screenshot js_strategy options,
          timeout := timeout }

end AskPablos

/-- Modelled from the spec: the AuthSigner component (the repository's auth
module) is not under src/.  Per spec section 4.3 the signature is a keyed
MAC over a canonical string that joins method, path, timestamp and payload
digest with a fixed separator (newline here), keyed by the secret key. -/
def canonicalString (method path timestamp digest : String) : String :=
  method ++ "\n" ++ path ++ "\n" ++ timestamp ++ "\n" ++ digest

/-- Modelled from the spec: the HMAC primitive the spec leaves unspecified
(section 9 open question) is idealised as an injective keyed tag — a
length-prefixed pairing of key and message — so that collision resistance
becomes provable injectivity, while staying a deterministic function of
(key, message) as HMAC is. -/
def macTag (secret message : String) : String :=
  String.mk (List.replicate secret.length '*') ++ "|" ++ secret ++ message

/-- Modelled from the spec: sign the canonical request facts with the
secret key (spec section 4.3). -/
def sign_request (secret method path timestamp digest : String) : String :=
  macTag secret (canonicalString method path timestamp digest)

/-- The contract of spec section 4.1: a validator either returns normally
or fails with a `ValueError` (the spec's ValidationError) carrying a
nonempty human-readable reason — never another exception kind. -/
def okOrValueError (r : Except PyExc Unit) : Prop :=
  r = .ok () ∨ ∃ msg, r = .error (.valueError msg) ∧ msg ≠ ""

/-! Helper lemmas. -/

theorem string_data_append (s t : String) : (s ++ t).data = s.data ++ t.data := by
  cases s; cases t; rfl

theorem string_ext {s t : String} (h : s.data = t.data) : s = t := by
  cases s; cases t; exact congrArg String.mk h

theorem string_length_eq (s : String) : s.length = s.data.length := rfl

theorem lookupD_dictUpdate (d : List (String × PyVal)) (k2 : String) (v2 : PyVal)
    (k : String) :
    lookupD (dictUpdate d (k2, v2)) k = if k = k2 then some v2 else lookupD d k := by
  induction d with
  | nil => simp [dictUpdate, lookupD]
  | cons a rest ih =>
    obtain ⟨ak, av⟩ := a
    by_cases hak : ak = k2
    · have hd : dictUpdate ((ak, av) :: rest) (k2, v2) = (ak, v2) :: rest := by
        simp [dictUpdate, hak]
      rw [hd]
      simp only [lookupD]
      by_cases hk : k = ak
      · rw [if_pos hk, if_pos (hak ▸ hk)]
      · rw [if_neg hk, if_neg (fun h => hk (h.trans hak.symm)), if_neg hk]
    · have hd : dictUpdate ((ak, av) :: rest) (k2, v2) =
          (ak, av) :: dictUpdate rest (k2, v2) := by
        simp [dictUpdate, hak]
      rw [hd]
      simp only [lookupD, ih]
      by_cases hk : k = ak
      · rw [if_pos hk, if_neg (fun h => hak ((hk ▸ h : ak = k2))), if_pos hk]
      · by_cases hk2 : k = k2
        · rw [if_neg hk, if_pos hk2, if_pos hk2]
        · rw [if_neg hk, if_neg hk2, if_neg hk2, if_neg hk]

theorem lookupD_append (l₁ l₂ : List (String × PyVal)) (k : String) :
    lookupD (l₁ ++ l₂) k =
      match lookupD l₁ k with
      | some v => some v
      | none => lookupD l₂ k := by
  induction l₁ with
  | nil => simp [lookupD]
  | cons a rest ih =>
    obtain ⟨ak, av⟩ := a
    by_cases hk : k = ak <;> simp [lookupD, hk, ih]

theorem lookupD_dictUpdateAll (kwargs : List (String × PyVal)) :
    ∀ (d : List (String × PyVal)) (k : String),
      lookupD (dictUpdateAll d kwargs) k =
        match lookupD kwargs.reverse k with
        | some v => some v
        | none => lookupD d k := by
  induction kwargs with
  | nil => intro d k; simp [dictUpdateAll, lookupD]
  | cons kv rest ih =>
    intro d k
    obtain ⟨kk, vv⟩ := kv
    have h1 : dictUpdateAll d ((kk, vv) :: rest) =
        dictUpdateAll (dictUpdate d (kk, vv)) rest := rfl
    rw [h1, ih, List.reverse_cons, lookupD_append]
    rcases hr : lookupD rest.reverse k with _ | v
    · simp only [hr, lookupD_dictUpdate]
      by_cases hk : k = kk <;> simp [hk, lookupD]
    · simp [hr]

theorem lookupD_eq_none (l : List (String × PyVal)) (k : String)
    (h : ∀ kv ∈ l, kv.1 ≠ k) : lookupD l k = none := by
  induction l with
  | nil => rfl
  | cons a rest ih =>
    have ha := h a (List.mem_cons_self a rest)
    have : ¬ (k = a.1) := fun hk => ha hk.symm
    obtain ⟨ak, av⟩ := a
    simp only [lookupD, if_neg this]
    exact ih fun kv hkv => h kv (List.mem_cons_of_mem _ hkv)

theorem replicate_star_inj (n₁ : Nat) :
    ∀ (n₂ : Nat) (t₁ t₂ : List Char),
      List.replicate n₁ '*' ++ '|' :: t₁ = List.replicate n₂ '*' ++ '|' :: t₂ →
      n₁ = n₂ ∧ t₁ = t₂ := by
  induction n₁ with
  | zero =>
    intro n₂ t₁ t₂ h
    cases n₂ with
    | zero => simpa using h
    | succ m =>
      rw [List.replicate_succ] at h
      injection h with h1 h2
      exact absurd h1 (by decide)
  | succ m ih =>
    intro n₂ t₁ t₂ h
    cases n₂ with
    | zero =>
      rw [List.replicate_succ] at h
      injection h with h1 h2
      exact absurd h1 (by decide)
    | succ m2 =>
      rw [List.replicate_succ, List.replicate_succ] at h
      injection h with h1 h2
      obtain ⟨hm, ht⟩ := ih m2 t₁ t₂ h2
      exact ⟨by rw [hm], ht⟩

theorem nl_split_inj (a₁ : List Char) :
    ∀ (a₂ t₁ t₂ : List Char), '\n' ∉ a₁ → '\n' ∉ a₂ →
      a₁ ++ '\n' :: t₁ = a₂ ++ '\n' :: t₂ → a₁ = a₂ ∧ t₁ = t₂ := by
  induction a₁ with
  | nil =>
    intro a₂ t₁ t₂ _ h₂ h
    cases a₂ with
    | nil => simpa using h
    | cons c rest =>
      injection h with h1 h2
      exact absurd (h1 ▸ List.mem_cons_self c rest) h₂
  | cons c rest ih =>
    intro a₂ t₁ t₂ h₁ h₂ h
    cases a₂ with
    | nil =>
      injection h with h1 h2
      exact absurd (h1 ▸ List.mem_cons_self c rest) h₁
    | cons c2 rest2 =>
      injection h with h1 h2
      obtain ⟨hr, ht⟩ := ih rest2 t₁ t₂
        (fun hm => h₁ (List.mem_cons_of_mem _ hm))
        (fun hm => h₂ (List.mem_cons_of_mem _ hm)) h2
      exact ⟨by rw [h1, hr], ht⟩

theorem macTag_data (k m : String) :
    (macTag k m).data =
      List.replicate k.length '*' ++ '|' :: (k.data ++ m.data) := by
  simp only [macTag, string_data_append]
  simp [List.append_assoc]

theorem macTag_inj {k₁ k₂ m₁ m₂ : String} (h : macTag k₁ m₁ = macTag k₂ m₂) :
    k₁ = k₂ ∧ m₁ = m₂ := by
  have hd := congrArg String.data h
  rw [macTag_data, macTag_data] at hd
  obtain ⟨hlen, htail⟩ := replicate_star_inj k₁.length k₂.length _ _ hd
  have hky := List.append_inj htail (by
    rw [string_length_eq, string_length_eq] at hlen
    exact hlen)
  exact ⟨string_ext hky.1, string_ext hky.2⟩

theorem canonicalString_data (m p t d : String) :
    (canonicalString m p t d).data =
      m.data ++ '\n' :: (p.data ++ '\n' :: (t.data ++ '\n' :: d.data)) := by
  simp only [canonicalString, string_data_append]
  simp [List.append_assoc]

theorem canonicalString_inj {m₁ m₂ p₁ p₂ t₁ t₂ d₁ d₂ : String}
    (hm₁ : '\n' ∉ m₁.data) (hm₂ : '\n' ∉ m₂.data)
    (hp₁ : '\n' ∉ p₁.data) (hp₂ : '\n' ∉ p₂.data)
    (ht₁ : '\n' ∉ t₁.data) (ht₂ : '\n' ∉ t₂.data)
    (h : canonicalString m₁ p₁ t₁ d₁ = canonicalString m₂ p₂ t₂ d₂) :
    m₁ = m₂ ∧ p₁ = p₂ ∧ t₁ = t₂ ∧ d₁ = d₂ := by
  have hd := congrArg String.data h
  rw [canonicalString_data, canonicalString_data] at hd
  obtain ⟨hm, hrest⟩ := nl_split_inj _ _ _ _ hm₁ hm₂ hd
  obtain ⟨hp, hrest2⟩ := nl_split_inj _ _ _ _ hp₁ hp₂ hrest
  obtain ⟨ht, hd2⟩ := nl_split_inj _ _ _ _ ht₁ ht₂ hrest2
  exact ⟨string_ext hm, string_ext hp, string_ext ht, string_ext hd2⟩

/-! Claim theorems. -/

/-- C10: validate_timeout accepts the Python boolean True — bool is an int
subclass and True compares equal to 1, so the integer check and the bounds
both pass — while False fails with the greater-than-0 reason, not the
integer-type reason. -/
theorem c10_validate_timeout_bools :
    ParameterValidator.validate_timeout (.pbool true) = .ok () ∧
    ParameterValidator.validate_timeout (.pbool false) =
      .error (.valueError "Timeout must be greater than 0") :=
  ⟨rfl, rfl⟩

/-- C5: validate_timeout returns normally for every integer in [1, 300] and
fails for 0, for negatives, for values over 300, and for every value that
is not an int instance. -/
theorem c5_validate_timeout_range :
    (∀ t : Int, 1 ≤ t → t ≤ 300 →
      ParameterValidator.validate_timeout (.pint t) = .ok ()) ∧
    (∀ t : Int, t ≤ 0 → ParameterValidator.validate_timeout (.pint t) =
      .error (.valueError "Timeout must be greater than 0")) ∧
    (∀ t : Int, 300 < t → ParameterValidator.validate_timeout (.pint t) =
      .error (.valueError "Timeout cannot exceed 300 seconds")) ∧
    (∀ v : PyVal, isInstInt v = false →
      ParameterValidator.validate_timeout v =
        .error (.valueError "Timeout must be an integer")) := by
  refine ⟨?_, ?_, ?_, ?_⟩
  · intro t h1 h2
    unfold ParameterValidator.validate_timeout
    rw [if_neg (by simp [isInstInt]), if_neg (by simp [intValue]; omega),
      if_neg (by simp [intValue]; omega)]
  · intro t ht
    unfold ParameterValidator.validate_timeout
    rw [if_neg (by simp [isInstInt]), if_pos (by simpa [intValue] using ht)]
  · intro t ht
    unfold ParameterValidator.validate_timeout
    rw [if_neg (by simp [isInstInt]), if_neg (by simp [intValue]; omega),
      if_pos (by simpa [intValue] using ht)]
  · intro v hv
    unfold ParameterValidator.validate_timeout
    rw [if_pos hv]

/-- C5 witness: the theorem applied at 30, 0, 301 and a string. -/
theorem c5_validate_timeout_range_witness :
    ParameterValidator.validate_timeout (.pint 30) = .ok () ∧
    ParameterValidator.validate_timeout (.pint 0) =
      .error (.valueError "Timeout must be greater than 0") ∧
    ParameterValidator.validate_timeout (.pint 301) =
      .error (.valueError "Timeout cannot exceed 300 seconds") ∧
    ParameterValidator.validate_timeout (.pstr "soon") =
      .error (.valueError "Timeout must be an integer") :=
  ⟨c5_validate_timeout_range.1 30 (by decide) (by decide),
   c5_validate_timeout_range.2.1 0 (by decide),
   c5_validate_timeout_range.2.2.1 301 (by decide),
   c5_validate_timeout_range.2.2.2 (.pstr "soon") (by decide)⟩

/-- C4 counterexample: the Python integer 1 passes validate_js_strategy
although it is none of DEFAULT, True, False — Python membership uses `==`
and `True == 1`. -/
theorem c4_counterexample_int_one :
    ParameterValidator.validate_js_strategy (.pint 1) = .ok () ∧
    PyVal.pint 1 ≠ .pstr "DEFAULT" ∧ PyVal.pint 1 ≠ .pbool true ∧
    PyVal.pint 1 ≠ .pbool false :=
  ⟨rfl, by decide, by decide, by decide⟩

/-- C4 amended: validate_js_strategy returns normally exactly for the
values Python `==` identifies with DEFAULT, True or False — the three
values themselves plus the integers 1 and 0. -/
theorem c4_amended_js_strategy (v : PyVal) :
    ParameterValidator.validate_js_strategy v = .ok () ↔
      (v = .pstr "DEFAULT" ∨ v = .pbool true ∨ v = .pbool false ∨
       v = .pint 1 ∨ v = .pint 0) := by
  cases v with
  | pstr s =>
    by_cases h : s = "DEFAULT" <;>
      simp [ParameterValidator.validate_js_strategy, pyEqStr, pyEqBool, h]
  | pbool b =>
    cases b <;>
      simp [ParameterValidator.validate_js_strategy, pyEqStr, pyEqBool]
  | pint n =>
    by_cases h1 : n = 1
    · simp [ParameterValidator.validate_js_strategy, pyEqStr, pyEqBool, h1]
    · by_cases h0 : n = 0 <;>
        simp [ParameterValidator.validate_js_strategy, pyEqStr, pyEqBool,
          h1, h0]
  | pnone =>
    simp [ParameterValidator.validate_js_strategy, pyEqStr, pyEqBool]

/-- C9: the inline guard at the top of AskPablos.get and
ParameterValidator.validate_browser_dependencies raise under exactly the
same trigger condition (the guard renders the js_strategy entry as the
literal text js_strategy=True while the validator interpolates the value,
but the trigger is the same). -/
theorem c9_guard_matches_validator (b w s : Bool) (j : PyVal) :
    AskPablos.browser_guard b w s j = .ok () ↔
      ParameterValidator.validate_browser_dependencies b w s j = .ok () := by
  cases b <;> cases w <;> cases s <;>
    cases hj : pyEqStr j "DEFAULT" <;>
      simp [AskPablos.browser_guard,
        ParameterValidator.validate_browser_dependencies, hj]

/-- C1: with browser=false, requesting wait_for_load, screenshot, or a
non-default js_strategy (alone or combined) makes both
validate_browser_dependencies and AskPablos.get fail, the error message
listing exactly the offending features comma-joined in the fixed order
wait_for_load, screenshot, js_strategy; with browser=true neither ever
fails. -/
theorem c1_browser_dependency_failure (w s : Bool) (j : PyVal) :
    (ParameterValidator.validate_browser_dependencies true w s j = .ok () ∧
     ∀ (url : PyVal) (prms hdrs : PyArg) (r : Bool) (t : PyVal)
       (opts : List (String × PyVal)), ∃ nc,
         AskPablos.get url prms hdrs true r w s j t opts = .ok nc) ∧
    ((w = true ∨ s = true ∨ pyEqStr j "DEFAULT" = false) →
      ParameterValidator.validate_browser_dependencies false w s j =
        .error (.valueError ("browser=True is required for these actions: " ++
          String.intercalate ", "
            ((if w then ["wait_for_load=True"] else []) ++
             (if s then ["screenshot=True"] else []) ++
             (if pyEqStr j "DEFAULT" then []
              else ["js_strategy=" ++ pyStr j])))) ∧
      ∀ (url : PyVal) (prms hdrs : PyArg) (r : Bool) (t : PyVal)
        (opts : List (String × PyVal)),
        AskPablos.get url prms hdrs false r w s j t opts =
          .error (.valueError ("browser=True is required for these actions: " ++
            String.intercalate ", "
              ((if w then ["wait_for_load=True"] else []) ++
               (if s then ["screenshot=True"] else []) ++
               (if pyEqStr j "DEFAULT" then []
                else ["js_strategy=True"]))))) := by
  constructor
  · exact ⟨rfl, fun url prms hdrs r t opts => ⟨_, rfl⟩⟩
  · intro htrig
    cases hw : w <;> cases hs : s <;> cases hj : pyEqStr j "DEFAULT" <;>
      simp_all [ParameterValidator.validate_browser_dependencies,
        AskPablos.get, AskPablos.browser_guard]

/-- C1 witness: the theorem at wait_for_load=true, screenshot=true,
js_strategy=False (the validator interpolates the value, the facade
prints the literal text). -/
theorem c1_browser_dependency_failure_witness :
    ParameterValidator.validate_browser_dependencies false true true
        (.pbool false) =
      .error (.valueError ("browser=True is required for these actions: " ++
        "wait_for_load=True, screenshot=True, js_strategy=False")) ∧
    AskPablos.get (.pstr "https://example.com") (.scalar .pnone)
        (.scalar .pnone) false false true true (.pbool false) (.pint 30) [] =
      .error (.valueError ("browser=True is required for these actions: " ++
        "wait_for_load=True, screenshot=True, js_strategy=True")) := by
  have h := (c1_browser_dependency_failure true true (.pbool false)).2
    (Or.inl rfl)
  exact ⟨h.1, h.2 (.pstr "https://example.com") (.scalar .pnone)
    (.scalar .pnone) false (.pint 30) []⟩

/-- C2 counterexample: a call that violates the timeout rule
(timeout=400) — which validate_request_params rejects — passes through
AskPablos.get and reaches the network layer, because get never runs the
parameter validator. -/
theorem c2_counterexample_timeout_reaches_network :
    ParameterValidator.validate_request_params (.pstr "https://example.com")
        (.pstr "GET") (.scalar .pnone) (.scalar .pnone) false false false
        (.pstr "DEFAULT") (.pint 400) =
      .error (.valueError "Timeout cannot exceed 300 seconds") ∧
    AskPablos.get (.pstr "https://example.com") (.scalar .pnone)
        (.scalar .pnone) false false false false (.pstr "DEFAULT")
        (.pint 400) [] =
      .ok { url := .pstr "https://example.com", headers := .scalar .pnone,
            params := .scalar .pnone,
            options := [("browser", .pbool false),
              ("rotate_proxy", .pbool false)],
            timeout := .pint 400 } :=
  ⟨rfl, rfl⟩

/-- C2 amended: AskPablos.get performs only the inline browser-dependency
check before delegating; it fails before invoking HTTPClient.request
exactly for browser-dependency violations, and a call violating any other
section 4.1 rule reaches the network layer. -/
theorem c2_amended_get_only_guards_browser (url : PyVal) (prms hdrs : PyArg)
    (b r w s : Bool) (j t : PyVal) (opts : List (String × PyVal)) :
    (∃ e, AskPablos.get url prms hdrs b r w s j t opts = .error e) ↔
      (b = false ∧ (w = true ∨ s = true ∨ pyEqStr j "DEFAULT" = false)) := by
  cases b <;> cases w <;> cases s <;> cases hj : pyEqStr j "DEFAULT" <;>
    simp [AskPablos.get, AskPablos.browser_guard, hj]

theorem append_ne_empty_left (s t : String) (hs : s.data ≠ []) :
    s ++ t ≠ "" := by
  intro h
  have hd := congrArg String.data h
  rw [string_data_append] at hd
  have h0 : ("" : String).data = [] := rfl
  rw [h0] at hd
  exact hs (List.append_eq_nil.mp hd).1

theorem append3_ne_empty (a b c : String) (ha : a.data ≠ []) :
    a ++ b ++ c ≠ "" := by
  apply append_ne_empty_left
  rw [string_data_append]
  intro h
  exact ha (List.append_eq_nil.mp h).1

theorem checkPairs_ok_or_valueError (kind : String) (hk : kind.data ≠ []) :
    ∀ entries, okOrValueError (ParameterValidator.checkPairs kind entries) := by
  intro entries
  induction entries with
  | nil => exact Or.inl rfl
  | cons a rest ih =>
    obtain ⟨k, v⟩ := a
    by_cases h1 : isInstStr k = false
    · refine Or.inr ⟨kind ++ " key must be string, got " ++ pyTypeName k,
        ?_, append3_ne_empty _ _ _ hk⟩
      simp [ParameterValidator.checkPairs, h1]
    · by_cases h2 : isInstStr v = false
      · refine Or.inr ⟨kind ++ " value must be string, got " ++ pyTypeName v,
          ?_, append3_ne_empty _ _ _ hk⟩
        simp [ParameterValidator.checkPairs, h1, h2]
      · have hstep : ParameterValidator.checkPairs kind ((k, v) :: rest) =
            ParameterValidator.checkPairs kind rest := by
          simp [ParameterValidator.checkPairs, h1, h2]
        rw [hstep]
        exact ih

/-- C3: each of the seven validation functions either returns normally or
fails with a ValueError (the realization of the spec's ValidationError)
carrying a nonempty human-readable reason — never with another exception
kind. -/
theorem c3_validators_fail_only_with_value_error :
    (∀ v, okOrValueError (ParameterValidator.validate_url v)) ∧
    (∀ v, okOrValueError (ParameterValidator.validate_method v)) ∧
    (∀ h, okOrValueError (ParameterValidator.validate_headers h)) ∧
    (∀ p, okOrValueError (ParameterValidator.validate_params p)) ∧
    (∀ j, okOrValueError (ParameterValidator.validate_js_strategy j)) ∧
    (∀ t, okOrValueError (ParameterValidator.validate_timeout t)) ∧
    (∀ b w s j, okOrValueError
      (ParameterValidator.validate_browser_dependencies b w s j)) := by
  refine ⟨?_, ?_, ?_, ?_, ?_, ?_, ?_⟩
  · intro v
    by_cases h0 : pyTruthy v = false
    · refine Or.inr ⟨"URL is required and cannot be empty", ?_, by decide⟩
      simp only [ParameterValidator.validate_url]
      rw [if_pos h0]
    · cases v with
      | pstr s =>
        by_cases h1 : (strStartsWith s "http://" ||
            strStartsWith s "https://") = true
        · refine Or.inl ?_
          simp only [ParameterValidator.validate_url]
          rw [if_neg h0, if_pos h1]
        · refine Or.inr
            ⟨"URL must start with 'http://' or 'https://'", ?_, by decide⟩
          simp only [ParameterValidator.validate_url]
          rw [if_neg h0, if_neg h1]
      | pbool b =>
        refine Or.inr ⟨"URL must be a string", ?_, by decide⟩
        simp only [ParameterValidator.validate_url]
        rw [if_neg h0]
      | pint n =>
        refine Or.inr ⟨"URL must be a string", ?_, by decide⟩
        simp only [ParameterValidator.validate_url]
        rw [if_neg h0]
      | pnone => exact absurd rfl h0
  · intro v
    cases v with
    | pstr s =>
      by_cases h1 : (["GET", "POST", "PUT", "DELETE", "PATCH", "HEAD",
          "OPTIONS"].contains (strToUpper s)) = true
      · refine Or.inl ?_
        simp only [ParameterValidator.validate_method]
        rw [if_pos h1]
      · refine Or.inr
          ⟨"HTTP method must be one of: GET, POST, PUT, DELETE, PATCH, HEAD, OPTIONS",
            ?_, by decide⟩
        simp only [ParameterValidator.validate_method]
        rw [if_neg h1]
    | pbool b => exact Or.inr ⟨"HTTP method must be a string", rfl, by decide⟩
    | pint n => exact Or.inr ⟨"HTTP method must be a string", rfl, by decide⟩
    | pnone => exact Or.inr ⟨"HTTP method must be a string", rfl, by decide⟩
  · intro h
    cases h with
    | scalar v =>
      cases v with
      | pnone => exact Or.inl rfl
      | pstr s =>
        exact Or.inr ⟨"Headers must be a dictionary", rfl, by decide⟩
      | pbool b =>
        exact Or.inr ⟨"Headers must be a dictionary", rfl, by decide⟩
      | pint n =>
        exact Or.inr ⟨"Headers must be a dictionary", rfl, by decide⟩
    | pdict entries =>
      exact checkPairs_ok_or_valueError "Header" (by decide) entries
  · intro p
    cases p with
    | scalar v =>
      cases v with
      | pnone => exact Or.inl rfl
      | pstr s =>
        exact Or.inr ⟨"Parameters must be a dictionary", rfl, by decide⟩
      | pbool b =>
        exact Or.inr ⟨"Parameters must be a dictionary", rfl, by decide⟩
      | pint n =>
        exact Or.inr ⟨"Parameters must be a dictionary", rfl, by decide⟩
    | pdict entries =>
      exact checkPairs_ok_or_valueError "Parameter" (by decide) entries
  · intro j
    by_cases h1 : (pyEqStr j "DEFAULT" || pyEqBool j true ||
        pyEqBool j false) = true
    · refine Or.inl ?_
      simp only [ParameterValidator.validate_js_strategy]
      rw [if_pos h1]
    · refine Or.inr
        ⟨"js_strategy must be one of: DEFAULT, True, False", ?_, by decide⟩
      simp only [ParameterValidator.validate_js_strategy]
      rw [if_neg h1]
  · intro t
    by_cases h0 : isInstInt t = false
    · refine Or.inr ⟨"Timeout must be an integer", ?_, by decide⟩
      simp only [ParameterValidator.validate_timeout]
      rw [if_pos h0]
    · by_cases h1 : intValue t ≤ 0
      · refine Or.inr ⟨"Timeout must be greater than 0", ?_, by decide⟩
        simp only [ParameterValidator.validate_timeout]
        rw [if_neg h0, if_pos h1]
      · by_cases h2 : intValue t > 300
        · refine Or.inr ⟨"Timeout cannot exceed 300 seconds", ?_, by decide⟩
          simp only [ParameterValidator.validate_timeout]
          rw [if_neg h0, if_neg h1, if_pos h2]
        · refine Or.inl ?_
          simp only [ParameterValidator.validate_timeout]
          rw [if_neg h0, if_neg h1, if_neg h2]
  · intro b w s j
    cases b with
    | true => exact Or.inl rfl
    | false =>
      cases hw : w <;> cases hs : s <;> cases hj : pyEqStr j "DEFAULT"
      · refine Or.inr ⟨"browser=True is required for these actions: " ++
          String.intercalate ", " ["js_strategy=" ++ pyStr j], ?_,
          append_ne_empty_left _ _ (by decide)⟩
        simp [ParameterValidator.validate_browser_dependencies, hj]
      · exact Or.inl
          (by simp [ParameterValidator.validate_browser_dependencies, hj])
      · refine Or.inr ⟨"browser=True is required for these actions: " ++
          String.intercalate ", " ["screenshot=True",
            "js_strategy=" ++ pyStr j], ?_,
          append_ne_empty_left _ _ (by decide)⟩
        simp [ParameterValidator.validate_browser_dependencies, hj]
      · refine Or.inr ⟨"browser=True is required for these actions: " ++
          String.intercalate ", " ["screenshot=True"], ?_,
          append_ne_empty_left _ _ (by decide)⟩
        simp [ParameterValidator.validate_browser_dependencies, hj]
      · refine Or.inr ⟨"browser=True is required for these actions: " ++
          String.intercalate ", " ["wait_for_load=True",
            "js_strategy=" ++ pyStr j], ?_,
          append_ne_empty_left _ _ (by decide)⟩
        simp [ParameterValidator.validate_browser_dependencies, hj]
      · refine Or.inr ⟨"browser=True is required for these actions: " ++
          String.intercalate ", " ["wait_for_load=True"], ?_,
          append_ne_empty_left _ _ (by decide)⟩
        simp [ParameterValidator.validate_browser_dependencies, hj]
      · refine Or.inr ⟨"browser=True is required for these actions: " ++
          String.intercalate ", " ["wait_for_load=True", "screenshot=True",
            "js_strategy=" ++ pyStr j], ?_,
          append_ne_empty_left _ _ (by decide)⟩
        simp [ParameterValidator.validate_browser_dependencies, hj]
      · refine Or.inr ⟨"browser=True is required for these actions: " ++
          String.intercalate ", " ["wait_for_load=True", "screenshot=True"],
          ?_, append_ne_empty_left _ _ (by decide)⟩
        simp [ParameterValidator.validate_browser_dependencies, hj]

/-- C6: with browser=false the built options contain none of the keys
wait_for_load, screenshot, js_strategy, whatever the corresponding input
values.  The hypothesis on kwargs reflects Python keyword binding: a
keyword named like one of the named parameters binds to that parameter
(or is a call-site TypeError), so the kwargs dict cannot carry these
keys. -/
theorem c6_no_browser_keys (r w s : Bool) (j : PyVal)
    (kwargs : List (String × PyVal))
    (hk : ∀ kv ∈ kwargs, kv.1 ≠ "wait_for_load" ∧ kv.1 ≠ "screenshot" ∧
      kv.1 ≠ "js_strategy") :
    lookupD (build_proxy_options false r w s j kwargs) "wait_for_load" = none ∧
    lookupD (build_proxy_options false r w s j kwargs) "screenshot" = none ∧
    lookupD (build_proxy_options false r w s j kwargs) "js_strategy" = none := by
  have key_none : ∀ key : String, (∀ kv ∈ kwargs, kv.1 ≠ key) →
      lookupD [("browser", PyVal.pbool false),
        ("rotate_proxy", PyVal.pbool r)] key = none →
      lookupD (build_proxy_options false r w s j kwargs) key = none := by
    intro key hkey hbase
    have hb : build_proxy_options false r w s j kwargs =
        dictUpdateAll [("browser", PyVal.pbool false),
          ("rotate_proxy", PyVal.pbool r)] kwargs := rfl
    rw [hb, lookupD_dictUpdateAll,
      lookupD_eq_none kwargs.reverse key
        (fun kv hkv => hkey kv (List.mem_reverse.mp hkv))]
    exact hbase
  exact ⟨key_none "wait_for_load" (fun kv hkv => (hk kv hkv).1) rfl,
    key_none "screenshot" (fun kv hkv => (hk kv hkv).2.1) rfl,
    key_none "js_strategy" (fun kv hkv => (hk kv hkv).2.2) rfl⟩

/-- C6 witness: the theorem at a concrete kwargs carrying an unrelated
extra key. -/
theorem c6_no_browser_keys_witness :
    lookupD (build_proxy_options false true true true (.pbool true)
      [("user_agent", .pstr "UA")]) "wait_for_load" = none ∧
    lookupD (build_proxy_options false true true true (.pbool true)
      [("user_agent", .pstr "UA")]) "screenshot" = none ∧
    lookupD (build_proxy_options false true true true (.pbool true)
      [("user_agent", .pstr "UA")]) "js_strategy" = none :=
  c6_no_browser_keys true true true (.pbool true)
    [("user_agent", .pstr "UA")] (by decide)

/-- C7: with browser=true the built options are exactly the five named
entries {browser, rotate_proxy, wait_for_load, screenshot, js_strategy}
overwritten by the extras applied last — for every key the last extra
entry wins, otherwise the named entry answers — and the browser and
rotate_proxy keys are always present, whatever the inputs. -/
theorem c7_build_proxy_options_browser (r : Bool)
    (extra : List (String × PyVal)) :
    (∀ k, lookupD (build_proxy_options true r true true (.pbool false)
        extra) k =
      match lookupD extra.reverse k with
      | some v => some v
      | none =>
        lookupD [("browser", .pbool true), ("rotate_proxy", .pbool r),
          ("wait_for_load", .pbool true), ("screenshot", .pbool true),
          ("js_strategy", .pbool false)] k) ∧
    (∀ (b w s : Bool) (j : PyVal) (kwargs : List (String × PyVal)),
      (lookupD (build_proxy_options b r w s j kwargs) "browser").isSome =
        true ∧
      (lookupD (build_proxy_options b r w s j kwargs)
        "rotate_proxy").isSome = true) := by
  constructor
  · intro k
    have hb : build_proxy_options true r true true (.pbool false) extra =
        dictUpdateAll [("browser", PyVal.pbool true),
          ("rotate_proxy", PyVal.pbool r),
          ("wait_for_load", PyVal.pbool true),
          ("screenshot", PyVal.pbool true),
          ("js_strategy", PyVal.pbool false)] extra := rfl
    rw [hb]
    exact lookupD_dictUpdateAll extra _ k
  · intro b w s j kwargs
    constructor
    · simp only [build_proxy_options]
      rw [lookupD_dictUpdateAll]
      rcases lookupD kwargs.reverse "browser" with _ | v
      · cases b <;> simp [lookupD]
      · simp
    · simp only [build_proxy_options]
      rw [lookupD_dictUpdateAll]
      rcases lookupD kwargs.reverse "rotate_proxy" with _ | v
      · cases b <;> simp [lookupD]
      · simp

/-- C8: signing is deterministic — the same credentials and canonical
request facts always give the same signature — and changing any single one
of method, path, secret key, or timestamp changes the signature (the
fields are newline-free, as HTTP methods, URL paths and numeric timestamps
are, so the canonical string separates them unambiguously). -/
theorem c8_signing_deterministic_and_sensitive
    (secret secret' method method' path path' timestamp timestamp'
      digest : String)
    (hm : '\n' ∉ method.data) (hm' : '\n' ∉ method'.data)
    (hp : '\n' ∉ path.data) (hp' : '\n' ∉ path'.data)
    (ht : '\n' ∉ timestamp.data) (ht' : '\n' ∉ timestamp'.data) :
    sign_request secret method path timestamp digest =
      sign_request secret method path timestamp digest ∧
    (method ≠ method' → sign_request secret method path timestamp digest ≠
      sign_request secret method' path timestamp digest) ∧
    (path ≠ path' → sign_request secret method path timestamp digest ≠
      sign_request secret method path' timestamp digest) ∧
    (secret ≠ secret' → sign_request secret method path timestamp digest ≠
      sign_request secret' method path timestamp digest) ∧
    (timestamp ≠ timestamp' → sign_request secret method path timestamp
      digest ≠ sign_request secret method path timestamp' digest) := by
  refine ⟨rfl, ?_, ?_, ?_, ?_⟩
  · intro hne heq
    obtain ⟨hs, hc⟩ := macTag_inj heq
    exact hne (canonicalString_inj hm hm' hp hp ht ht hc).1
  · intro hne heq
    obtain ⟨hs, hc⟩ := macTag_inj heq
    exact hne (canonicalString_inj hm hm hp hp' ht ht hc).2.1
  · intro hne heq
    obtain ⟨hs, hc⟩ := macTag_inj heq
    exact hne hs
  · intro hne heq
    obtain ⟨hs, hc⟩ := macTag_inj heq
    exact hne (canonicalString_inj hm hm hp hp ht ht' hc).2.2.1

/-- C8 witness: the theorem at concrete credentials and request facts. -/
theorem c8_signing_witness :
    sign_request "sk" "GET" "/a" "100" "dg" =
      sign_request "sk" "GET" "/a" "100" "dg" ∧
    sign_request "sk" "GET" "/a" "100" "dg" ≠
      sign_request "sk" "POST" "/a" "100" "dg" ∧
    sign_request "sk" "GET" "/a" "100" "dg" ≠
      sign_request "sk" "GET" "/b" "100" "dg" ∧
    sign_request "sk" "GET" "/a" "100" "dg" ≠
      sign_request "sk2" "GET" "/a" "100" "dg" ∧
    sign_request "sk" "GET" "/a" "100" "dg" ≠
      sign_request "sk" "GET" "/a" "200" "dg" := by
  have h := c8_signing_deterministic_and_sensitive "sk" "sk2" "GET" "POST"
    "/a" "/b" "100" "200" "dg" (by decide) (by decide) (by decide)
    (by decide) (by decide) (by decide)
  exact ⟨h.1, h.2.1 (by decide), h.2.2.1 (by decide), h.2.2.2.1 (by decide),
    h.2.2.2.2 (by decide)⟩
